import Mathlib

/-!
Verification of the Emotion Evaluator sentiment service.

The development shallowly embeds the two Python source files of the
repository:

* `src/analyze.py` — the `SimpleSentimentAnalyzer` class and its
  `analyze` method (namespace `Analyze` below);
* `src/app.py` — the fallback `SimpleSentimentAnalyzer.analyze_text`
  method together with the HTTP `handler` class (`do_GET`, `do_POST`,
  `do_OPTIONS`) (namespace `App` below).

Modelling conventions:

* Text is modelled by the list of Unicode codepoints of the string
  (`codes`).  Python's `str.lower` is modelled on the ASCII letters
  (every lexicon word is ASCII), and `str.split` / `str.strip` split on
  the ASCII whitespace characters (space, tab, newline, carriage
  return, vertical tab, form feed), matching Python on all ASCII input.
* Python floats are modelled by rationals; `round(x, k)` is modelled by
  round-half-to-even on `x * 10^k` (Python's banker's rounding).
* `datetime.now().isoformat()` is modelled by threading an explicit
  `now : String` argument through the functions that record timestamps.
* The outcome of `json.loads` on a request body is part of the request
  model (`Option Json`, `none` modelling a `JSONDecodeError`), since the
  JSON grammar itself is not part of this repository.
-/

namespace EmotionEval

/-- Unicode codepoints of a string; model of Python iteration over `str`. -/
def codes (s : String) : List Nat := s.data.map Char.toNat

/-- ASCII whitespace, as recognised by Python's `str.split` / `str.strip`
on ASCII text: space, tab, line feed, carriage return, vertical tab,
form feed. -/
def isSpace (n : Nat) : Bool :=
  decide (n = 32 ∨ n = 9 ∨ n = 10 ∨ n = 13 ∨ n = 11 ∨ n = 12)

/-- Lowercasing of a single codepoint (`str.lower`, ASCII range). -/
def lowerCode (n : Nat) : Nat := if 65 ≤ n ∧ n ≤ 90 then n + 32 else n

/-- Model of `text.lower()`. -/
def pyLower (s : List Nat) : List Nat := s.map lowerCode

/-- Model of `text.strip()`: drop whitespace from both ends. -/
def pyStrip (s : List Nat) : List Nat :=
  ((s.dropWhile isSpace).reverse.dropWhile isSpace).reverse

/-- Helper for `pySplit`: the accumulator holds the current token
reversed. -/
def splitAux : List Nat → List Nat → List (List Nat)
  | [], acc => if acc = [] then [] else [acc.reverse]
  | c :: cs, acc =>
    if isSpace c then
      if acc = [] then splitAux cs [] else acc.reverse :: splitAux cs []
    else
      splitAux cs (c :: acc)

/-- Model of `text.split()` (no arguments): split on whitespace runs,
producing no empty tokens. -/
def pySplit (s : List Nat) : List (List Nat) := splitAux s []

/-- Round to the nearest integer, ties to the even integer — the
rounding mode of Python's builtin `round`. -/
def roundHalfEven (x : ℚ) : ℤ :=
  if x - ⌊x⌋ < 1/2 then ⌊x⌋
  else if 1/2 < x - ⌊x⌋ then ⌊x⌋ + 1
  else if ⌊x⌋ % 2 = 0 then ⌊x⌋ else ⌊x⌋ + 1

/-- Model of Python's `round(x, 3)`. -/
def round3 (x : ℚ) : ℚ := (roundHalfEven (x * 1000) : ℚ) / 1000

/-- Model of Python's `round(x, 1)`. -/
def round1 (x : ℚ) : ℚ := (roundHalfEven (x * 10) : ℚ) / 10

/-! Basic facts about the text primitives. -/

theorem dropWhile_forall_iff (p : Nat → Bool) (l : List Nat) :
    (∀ x ∈ l.dropWhile p, p x) ↔ (∀ x ∈ l, p x) := by
  induction l with
  | nil => simp
  | cons a t ih =>
    by_cases h : p a
    · simp [List.dropWhile_cons, h, ih]
    · simp [List.dropWhile_cons, h]

theorem pyStrip_eq_nil_iff (s : List Nat) :
    pyStrip s = [] ↔ ∀ n ∈ s, isSpace n := by
  unfold pyStrip
  rw [List.reverse_eq_nil_iff, List.dropWhile_eq_nil_iff]
  constructor
  · intro h n hn
    exact (dropWhile_forall_iff isSpace s).mp (fun x hx => h x (by simpa using hx)) n hn
  · intro h n hn
    exact h n (List.dropWhile_subset isSpace (by simpa using hn))

theorem splitAux_eq_nil_iff (s acc : List Nat) :
    splitAux s acc = [] ↔ (∀ n ∈ s, isSpace n) ∧ acc = [] := by
  induction s generalizing acc with
  | nil =>
    by_cases h : acc = [] <;> simp [splitAux, h]
  | cons c cs ih =>
    by_cases hc : isSpace c
    · by_cases ha : acc = []
      · subst ha
        rw [show splitAux (c :: cs) [] = splitAux cs [] by simp [splitAux, hc], ih]
        simp [List.forall_mem_cons, hc]
      · rw [show splitAux (c :: cs) acc = acc.reverse :: splitAux cs [] by
          simp [splitAux, hc, ha]]
        simp [ha]
    · rw [show splitAux (c :: cs) acc = splitAux cs (c :: acc) by simp [splitAux, hc], ih]
      simp [List.forall_mem_cons, hc]

theorem pySplit_eq_nil_iff (s : List Nat) :
    pySplit s = [] ↔ ∀ n ∈ s, isSpace n := by
  unfold pySplit
  rw [splitAux_eq_nil_iff]
  simp

theorem isSpace_lowerCode (n : Nat) : isSpace (lowerCode n) = isSpace n := by
  unfold isSpace lowerCode
  by_cases h : 65 ≤ n ∧ n ≤ 90
  · rw [if_pos h, decide_eq_decide]
    omega
  · rw [if_neg h]

theorem forall_isSpace_pyLower_iff (s : List Nat) :
    (∀ n ∈ pyLower s, isSpace n) ↔ (∀ n ∈ s, isSpace n) := by
  unfold pyLower
  constructor
  · intro h n hn
    have := h (lowerCode n) (List.mem_map_of_mem lowerCode hn)
    rwa [isSpace_lowerCode] at this
  · intro h m hm
    obtain ⟨n, hn, rfl⟩ := List.mem_map.mp hm
    rw [isSpace_lowerCode]
    exact h n hn

theorem countP_add_countP_le_length {α : Type} (p q : α → Bool) (l : List α)
    (h : ∀ x ∈ l, p x → ¬ q x) :
    l.countP p + l.countP q ≤ l.length := by
  induction l with
  | nil => simp
  | cons a t ih =>
    have ht : t.countP p + t.countP q ≤ t.length :=
      ih (fun x hx => h x (List.mem_cons_of_mem a hx))
    rw [List.countP_cons, List.countP_cons]
    simp only [List.length_cons]
    by_cases hp : p a
    · have hq : ¬ q a := h a (List.mem_cons_self a t) hp
      simp [hp, hq]
      omega
    · by_cases hq : q a <;> simp [hp, hq] <;> omega

/-! Bounds for the rounding model. -/

theorem roundHalfEven_ge_floor (x : ℚ) : ⌊x⌋ ≤ roundHalfEven x := by
  unfold roundHalfEven
  split
  · exact le_refl _
  · split
    · omega
    · split <;> omega

theorem roundHalfEven_le_ceil (x : ℚ) : roundHalfEven x ≤ ⌈x⌉ := by
  have hfc : ⌊x⌋ ≤ ⌈x⌉ := Int.floor_le_ceil x
  have hstep : 1/2 ≤ x - ⌊x⌋ → ⌊x⌋ + 1 ≤ ⌈x⌉ := by
    intro h
    have hx : (⌊x⌋ : ℚ) < x := by linarith
    exact Int.add_one_le_iff.mpr (Int.lt_ceil.mpr hx)
  unfold roundHalfEven
  split
  · exact hfc
  · next h1 =>
    split
    · next h2 => exact hstep (le_of_lt h2)
    · next h2 =>
      have heq : x - ⌊x⌋ = 1/2 := by linarith [not_lt.mp h1, not_lt.mp h2]
      split
      · exact hfc
      · exact hstep (by rw [heq])

theorem round3_ge (x : ℚ) (h : 3/10 ≤ x) : 3/10 ≤ round3 x := by
  unfold round3
  have h1 : (300 : ℤ) ≤ ⌊x * 1000⌋ := Int.le_floor.mpr (by push_cast; linarith)
  have h2 : (300 : ℤ) ≤ roundHalfEven (x * 1000) :=
    le_trans h1 (roundHalfEven_ge_floor _)
  have h3 : (300 : ℚ) ≤ (roundHalfEven (x * 1000) : ℚ) := by exact_mod_cast h2
  linarith

theorem round3_le_one (x : ℚ) (h : x ≤ 1) : round3 x ≤ 1 := by
  unfold round3
  have h1 : ⌈x * 1000⌉ ≤ (1000 : ℤ) := Int.ceil_le.mpr (by push_cast; linarith)
  have h2 : roundHalfEven (x * 1000) ≤ (1000 : ℤ) :=
    le_trans (roundHalfEven_le_ceil _) h1
  have h3 : (roundHalfEven (x * 1000) : ℚ) ≤ (1000 : ℚ) := by exact_mod_cast h2
  linarith

namespace Analyze

/-- Lexicon `self.positive_words` of `SimpleSentimentAnalyzer.__init__`
in `src/analyze.py`. -/
def positive_words : List (List Nat) :=
  List.map codes
    ["good", "great", "excellent", "amazing", "wonderful", "fantastic",
     "awesome", "love", "like", "enjoy", "happy", "pleased", "satisfied",
     "delighted", "perfect", "outstanding", "superb", "brilliant",
     "magnificent", "terrific", "best", "favorite", "recommend",
     "impressed", "beautiful", "nice", "positive", "fresh", "delicious",
     "tasty", "quality", "fast", "helpful", "incredible", "extraordinary"]

/-- Lexicon `self.negative_words` of `SimpleSentimentAnalyzer.__init__`
in `src/analyze.py`. -/
def negative_words : List (List Nat) :=
  List.map codes
    ["bad", "terrible", "awful", "horrible", "disgusting", "hate",
     "dislike", "disappointed", "unsatisfied", "unhappy", "angry",
     "frustrated", "annoyed", "worst", "poor", "cheap", "broken",
     "defective", "useless", "waste", "negative", "slow", "expensive",
     "rude", "dirty", "stale", "bland", "bitter", "sour", "wrong",
     "failed", "problem", "issue", "complaint", "disaster", "dreadful"]

/-- Metadata dictionary of the result returned on the branch of
`analyze` that found at least one sentiment word. -/
structure Metadata where
  text_length : Nat
  word_count : Nat
  positive_words : Nat
  negative_words : Nat
  timestamp : String
deriving DecidableEq, Repr

/-- Result dictionary of `SimpleSentimentAnalyzer.analyze`.  The source
returns plain dicts; the two early-return dicts carry no `metadata`
key, which is modelled by `metadata : Option Metadata`. -/
structure AnalysisResult where
  sentiment : String
  confidence : ℚ
  message : String
  emoji : String
  metadata : Option Metadata
deriving DecidableEq, Repr

/-- Model of `words = text.lower().split()`. -/
def words (text : String) : List (List Nat) := pySplit (pyLower (codes text))

/-- Model of `positive_count = sum(1 for word in words if word in self.positive_words)`. -/
def positive_count (text : String) : Nat :=
  (words text).countP (fun w => decide (w ∈ positive_words))

/-- Model of `negative_count = sum(1 for word in words if word in self.negative_words)`. -/
def negative_count (text : String) : Nat :=
  (words text).countP (fun w => decide (w ∈ negative_words))

/-- Model of `total_sentiment_words = positive_count + negative_count`. -/
def total_sentiment_words (text : String) : Nat :=
  positive_count text + negative_count text

/-- Model of `sentiment_score = (positive_count - negative_count) / len(words)`. -/
def sentiment_score (text : String) : ℚ :=
  ((positive_count text : ℚ) - (negative_count text : ℚ)) / ((words text).length : ℚ)

/-- Model of `confidence = min(1.0, total_sentiment_words / max(1, len(words)) + 0.3)`. -/
def confidence (text : String) : ℚ :=
  min 1 ((total_sentiment_words text : ℚ) / ((max 1 (words text).length : ℕ) : ℚ) + 3/10)

/-- Model of `SimpleSentimentAnalyzer.analyze` from `src/analyze.py`.
The `now` argument models the value of `datetime.now().isoformat()`
recorded in the metadata.  The `if/elif/else` over the score sets the
`(sentiment, message, emoji)` triple, and a single result dictionary is
returned, exactly as in the source. -/
def analyze (now : String) (text : String) : AnalysisResult :=
  if codes text = [] ∨ pyStrip (codes text) = [] then
    { sentiment := "neutral", confidence := 0,
      message := "Empty text", emoji := "😐", metadata := none }
  else if total_sentiment_words text = 0 then
    { sentiment := "neutral", confidence := 1/2,
      message := "Neutral sentiment detected", emoji := "😐", metadata := none }
  else
    let smer : String × String × String :=
      if 1/20 < sentiment_score text then
        ("positive", "Positive sentiment detected!", "😊")
      else if sentiment_score text < -(1/20) then
        ("negative", "Negative sentiment detected!", "😞")
      else
        ("neutral", "Neutral sentiment detected", "😐")
    { sentiment := smer.1, confidence := round3 (confidence text),
      message := smer.2.1, emoji := smer.2.2,
      metadata := some
        { text_length := (codes text).length, word_count := (words text).length,
          positive_words := positive_count text, negative_words := negative_count text,
          timestamp := now } }

/-! Branch lemmas for `analyze`. -/

theorem blank_iff_all_space (s : List Nat) :
    (s = [] ∨ pyStrip s = []) ↔ ∀ n ∈ s, isSpace n := by
  constructor
  · rintro (rfl | h)
    · simp
    · exact (pyStrip_eq_nil_iff s).mp h
  · intro h
    exact Or.inr ((pyStrip_eq_nil_iff s).mpr h)

theorem not_blank_of_total_pos (text : String) (h : 0 < total_sentiment_words text) :
    ¬(codes text = [] ∨ pyStrip (codes text) = []) := by
  intro hor
  have hw : words text = [] := by
    unfold words
    rw [pySplit_eq_nil_iff, forall_isSpace_pyLower_iff]
    exact (blank_iff_all_space (codes text)).mp hor
  have h1 : positive_count text = 0 := by
    unfold positive_count; rw [hw]; rfl
  have h2 : negative_count text = 0 := by
    unfold negative_count; rw [hw]; rfl
  unfold total_sentiment_words at h
  omega

theorem analyze_blank (now text : String)
    (h : codes text = [] ∨ pyStrip (codes text) = []) :
    analyze now text =
      { sentiment := "neutral", confidence := 0,
        message := "Empty text", emoji := "😐", metadata := none } := by
  unfold analyze
  rw [if_pos h]

theorem analyze_zero (now text : String)
    (h1 : ¬(codes text = [] ∨ pyStrip (codes text) = []))
    (h2 : total_sentiment_words text = 0) :
    analyze now text =
      { sentiment := "neutral", confidence := 1/2,
        message := "Neutral sentiment detected", emoji := "😐", metadata := none } := by
  unfold analyze
  rw [if_neg h1, if_pos h2]

theorem confidence_main (now text : String) (h : 0 < total_sentiment_words text) :
    (analyze now text).confidence = round3 (confidence text) := by
  unfold analyze
  rw [if_neg (not_blank_of_total_pos text h), if_neg (by omega)]

theorem metadata_main (now text : String) (h : 0 < total_sentiment_words text) :
    (analyze now text).metadata = some
      { text_length := (codes text).length, word_count := (words text).length,
        positive_words := positive_count text, negative_words := negative_count text,
        timestamp := now } := by
  unfold analyze
  rw [if_neg (not_blank_of_total_pos text h), if_neg (by omega)]

theorem metadata_none (now text : String) (h : total_sentiment_words text = 0) :
    (analyze now text).metadata = none := by
  by_cases hb : codes text = [] ∨ pyStrip (codes text) = []
  · rw [analyze_blank now text hb]
  · rw [analyze_zero now text hb h]

theorem smer_main (now text : String) (h : 0 < total_sentiment_words text) :
    ((analyze now text).sentiment, (analyze now text).message, (analyze now text).emoji)
      = (if 1/20 < sentiment_score text then
           ("positive", "Positive sentiment detected!", "😊")
         else if sentiment_score text < -(1/20) then
           ("negative", "Negative sentiment detected!", "😞")
         else
           ("neutral", "Neutral sentiment detected", "😐")) := by
  unfold analyze
  rw [if_neg (not_blank_of_total_pos text h), if_neg (by omega)]

theorem confidence_raw_bounds (text : String) (h : 0 < total_sentiment_words text) :
    3/10 ≤ confidence text ∧ confidence text ≤ 1 := by
  unfold confidence
  constructor
  · apply le_min (by norm_num)
    have h1 : (0:ℚ) ≤ (total_sentiment_words text : ℚ) / ((max 1 (words text).length : ℕ) : ℚ) :=
      div_nonneg (by positivity) (by positivity)
    linarith
  · exact min_le_left _ _

/-- Lexicon invariant used by claim C8: no word is in both sets. -/
theorem lexicons_disjoint : ∀ w ∈ positive_words, w ∉ negative_words := by decide

end Analyze

open Analyze

/-- C1: for every input text with at least one token matching the
lexicon, `analyze` computes `sentimentScore = (positiveCount -
negativeCount) / wordCount` and classifies with strict thresholds:
`sentimentScore > 0.05` yields sentiment "positive" with message
"Positive sentiment detected!" and emoji "😊"; `sentimentScore < -0.05`
yields "negative" with "Negative sentiment detected!" and "😞";
otherwise "neutral" with "Neutral sentiment detected" and "😐".  The
boundary values `0.05` and `-0.05` themselves classify as neutral. -/
theorem C1_threshold_classification (now text : String)
    (h : 0 < total_sentiment_words text) :
    ((analyze now text).sentiment, (analyze now text).message, (analyze now text).emoji)
        = (if 1/20 < sentiment_score text then
             ("positive", "Positive sentiment detected!", "😊")
           else if sentiment_score text < -(1/20) then
             ("negative", "Negative sentiment detected!", "😞")
           else
             ("neutral", "Neutral sentiment detected", "😐"))
      ∧ (sentiment_score text = 1/20 → (analyze now text).sentiment = "neutral")
      ∧ (sentiment_score text = -(1/20) → (analyze now text).sentiment = "neutral")
      ∧ sentiment_score text
          = ((positive_count text : ℚ) - (negative_count text : ℚ))
              / ((words text).length : ℚ) := by
  have hm := smer_main now text h
  refine ⟨hm, ?_, ?_, rfl⟩
  · intro hs
    rw [hs, if_neg (by norm_num), if_neg (by norm_num)] at hm
    exact congrArg Prod.fst hm
  · intro hs
    rw [hs, if_neg (by norm_num), if_neg (by norm_num)] at hm
    exact congrArg Prod.fst hm

/-- Witness for C1 at the boundary input
`"good a b c d e f g h i j k l m n o p q r s"`: twenty tokens, one
positive hit, so the score is exactly `1/20 = 0.05` and the result is
classified neutral. -/
theorem C1_threshold_classification_witness :
    0 < total_sentiment_words "good a b c d e f g h i j k l m n o p q r s"
      ∧ (analyze "2024-01-01T00:00:00" "good a b c d e f g h i j k l m n o p q r s").sentiment
          = "neutral" := by
  refine ⟨by decide, ?_⟩
  apply (C1_threshold_classification "2024-01-01T00:00:00"
    "good a b c d e f g h i j k l m n o p q r s" (by decide)).2.1
  have hp : positive_count "good a b c d e f g h i j k l m n o p q r s" = 1 := by decide
  have hn : negative_count "good a b c d e f g h i j k l m n o p q r s" = 0 := by decide
  have hw : (words "good a b c d e f g h i j k l m n o p q r s").length = 20 := by decide
  rw [sentiment_score, hp, hn, hw]
  norm_num

/-- C2: for every input text, the confidence returned by `analyze` lies
in `[0, 1]`; on the branch where at least one token matches the lexicon
it equals `min(1.0, totalSentimentWords / max(1, wordCount) + 0.3)`,
rounded to 3 decimal places. -/
theorem C2_confidence_formula (now text : String) :
    0 ≤ (analyze now text).confidence
      ∧ (analyze now text).confidence ≤ 1
      ∧ (0 < total_sentiment_words text →
          (analyze now text).confidence
            = round3 (min 1 ((total_sentiment_words text : ℚ)
                / ((max 1 (words text).length : ℕ) : ℚ) + 3/10))) := by
  by_cases hb : codes text = [] ∨ pyStrip (codes text) = []
  · rw [analyze_blank now text hb]
    refine ⟨le_refl 0, by norm_num, ?_⟩
    intro h
    exact absurd hb (not_blank_of_total_pos text h)
  · by_cases h0 : total_sentiment_words text = 0
    · rw [analyze_zero now text hb h0]
      exact ⟨by norm_num, by norm_num, fun h => by omega⟩
    · have h : 0 < total_sentiment_words text := Nat.pos_of_ne_zero h0
      rw [confidence_main now text h]
      obtain ⟨hlo, hhi⟩ := confidence_raw_bounds text h
      refine ⟨?_, round3_le_one _ hhi, fun _ => by rw [confidence]⟩
      have := round3_ge _ hlo
      linarith

/-- Witness for C2 at input `"good"`: one token, one positive hit, raw
confidence `min(1, 1/1 + 0.3) = 1`, returned confidence `1`. -/
theorem C2_confidence_formula_witness :
    0 < total_sentiment_words "good"
      ∧ (analyze "2024-01-01T00:00:00" "good").confidence = 1 := by
  refine ⟨by decide, ?_⟩
  rw [(C2_confidence_formula "2024-01-01T00:00:00" "good").2.2 (by decide)]
  have ht : total_sentiment_words "good" = 1 := by decide
  have hw : (words "good").length = 1 := by decide
  rw [ht, hw]
  norm_num [round3, roundHalfEven]

/-- C3: for every input text that is not empty or all-whitespace and
whose whitespace-delimited lowercased tokens contain no positive-lexicon
word and no negative-lexicon word, `analyze` returns sentiment
"neutral", confidence exactly `0.5`, and message
"Neutral sentiment detected". -/
theorem C3_no_lexicon_hit_neutral (now text : String)
    (h1 : pyStrip (codes text) ≠ [])
    (h2 : ∀ w ∈ words text, w ∉ positive_words ∧ w ∉ negative_words) :
    (analyze now text).sentiment = "neutral"
      ∧ (analyze now text).confidence = 1/2
      ∧ (analyze now text).message = "Neutral sentiment detected" := by
  have hb : ¬(codes text = [] ∨ pyStrip (codes text) = []) := by
    rintro (h | h)
    · exact h1 (by rw [h]; rfl)
    · exact h1 h
  have hp : positive_count text = 0 :=
    List.countP_eq_zero.mpr (fun w hw => by simpa using (h2 w hw).1)
  have hn : negative_count text = 0 :=
    List.countP_eq_zero.mpr (fun w hw => by simpa using (h2 w hw).2)
  have h0 : total_sentiment_words text = 0 := by
    unfold total_sentiment_words; omega
  rw [analyze_zero now text hb h0]
  exact ⟨rfl, rfl, rfl⟩

/-- Witness for C3 at input `"The sky is blue today"`: no token matches
either lexicon. -/
theorem C3_no_lexicon_hit_neutral_witness :
    pyStrip (codes "The sky is blue today") ≠ []
      ∧ (analyze "2024-01-01T00:00:00" "The sky is blue today").confidence = 1/2 :=
  ⟨by decide,
   (C3_no_lexicon_hit_neutral "2024-01-01T00:00:00" "The sky is blue today"
      (by decide) (by decide)).2.1⟩

/-- C4: for every input that is the empty string or consists only of
whitespace characters, `analyze` returns sentiment "neutral",
confidence exactly `0.0`, emoji "😐", and the "Empty text" message. -/
theorem C4_empty_text (now text : String)
    (h : pyStrip (codes text) = []) :
    (analyze now text).sentiment = "neutral"
      ∧ (analyze now text).confidence = 0
      ∧ (analyze now text).emoji = "😐"
      ∧ (analyze now text).message = "Empty text" := by
  rw [analyze_blank now text (Or.inr h)]
  exact ⟨rfl, rfl, rfl, rfl⟩

/-- Witness for C4 at the all-whitespace input `"  \t "`. -/
theorem C4_empty_text_witness :
    pyStrip (codes "  \t ") = []
      ∧ (analyze "2024-01-01T00:00:00" "  \t ").confidence = 0 :=
  ⟨by decide, (C4_empty_text "2024-01-01T00:00:00" "  \t " (by decide)).2.1⟩

/-- C7 counterexample: the claim says every result of `analyze` carries
a metadata object (with textLength, wordCount, positiveWords,
negativeWords, timestamp), including on the empty-text branch; but at
the concrete input `""` the returned dictionary has no metadata at
all. -/
theorem C7_counterexample :
    (analyze "2024-01-01T00:00:00" "").metadata = none := by decide

/-- C7 as amended: `analyze` returns a metadata object with fields
textLength (character count of the untrimmed input), wordCount,
positiveWords, negativeWords and the timestamp exactly on the branch
where at least one token matched the lexicon; on the empty-text branch
and the zero-sentiment-word branch the result carries no metadata. -/
theorem C7_metadata_fields (now text : String) :
    (0 < total_sentiment_words text →
      (analyze now text).metadata = some
        { text_length := (codes text).length, word_count := (words text).length,
          positive_words := positive_count text, negative_words := negative_count text,
          timestamp := now })
    ∧ (total_sentiment_words text = 0 → (analyze now text).metadata = none) :=
  ⟨fun h => metadata_main now text h, fun h => metadata_none now text h⟩

/-- Witness for the amended C7 at input `"good"`. -/
theorem C7_metadata_fields_witness :
    (analyze "2024-01-01T00:00:00" "good").metadata
      = some { text_length := 4, word_count := 1, positive_words := 1,
               negative_words := 0, timestamp := "2024-01-01T00:00:00" } := by
  rw [(C7_metadata_fields "2024-01-01T00:00:00" "good").1 (by decide)]
  decide

/-- C8: the two lexicon sets are disjoint, and whenever a result of
`analyze` reports metadata, its wordCount equals the number of
whitespace-delimited tokens of the lowercased text and
`positiveWords + negativeWords ≤ wordCount`. -/
theorem C8_wordcount_bound :
    (∀ w ∈ positive_words, w ∉ negative_words)
      ∧ ∀ (now text : String) (md : Metadata),
          (analyze now text).metadata = some md →
            md.word_count = (words text).length
              ∧ md.positive_words + md.negative_words ≤ md.word_count := by
  refine ⟨lexicons_disjoint, ?_⟩
  intro now text md h
  rcases Nat.eq_zero_or_pos (total_sentiment_words text) with h0 | h0
  · rw [metadata_none now text h0] at h
    cases h
  · rw [metadata_main now text h0] at h
    obtain rfl : md = _ := (Option.some.inj h).symm
    refine ⟨rfl, ?_⟩
    show positive_count text + negative_count text ≤ (words text).length
    apply countP_add_countP_le_length
    intro w hw hwp
    have h1 : w ∈ positive_words := of_decide_eq_true hwp
    have h2 : w ∉ negative_words := lexicons_disjoint w h1
    simpa using h2

/-- Witness for C8 at input `"good"`, whose metadata is
`⟨4, 1, 1, 0, timestamp⟩`. -/
theorem C8_wordcount_bound_witness :
    (analyze "2024-01-01T00:00:00" "good").metadata
        = some { text_length := 4, word_count := 1, positive_words := 1,
                 negative_words := 0, timestamp := "2024-01-01T00:00:00" }
      ∧ (1 : Nat) = (words "good").length ∧ 1 + 0 ≤ 1 := by
  have hmd : (analyze "2024-01-01T00:00:00" "good").metadata
      = some { text_length := 4, word_count := 1, positive_words := 1,
               negative_words := 0, timestamp := "2024-01-01T00:00:00" } := by
    decide
  exact ⟨hmd, (C8_wordcount_bound.2 "2024-01-01T00:00:00" "good" _ hmd).1, by omega⟩

/-- C9: scoring is deterministic and pure: for any two runs of `analyze`
(modelled by different timestamps) on input texts equal up to letter
case, the returned sentiment, confidence, message and emoji are
identical; and for the same input text the metadata can differ only in
its timestamp field. -/
theorem C9_deterministic (now₁ now₂ text₁ text₂ : String)
    (hl : pyLower (codes text₁) = pyLower (codes text₂)) :
    ((analyze now₁ text₁).sentiment = (analyze now₂ text₂).sentiment
      ∧ (analyze now₁ text₁).confidence = (analyze now₂ text₂).confidence
      ∧ (analyze now₁ text₁).message = (analyze now₂ text₂).message
      ∧ (analyze now₁ text₁).emoji = (analyze now₂ text₂).emoji)
    ∧ (text₁ = text₂ →
        (analyze now₁ text₁).metadata.map
            (fun md => (md.text_length, md.word_count, md.positive_words, md.negative_words))
          = (analyze now₂ text₂).metadata.map
            (fun md => (md.text_length, md.word_count, md.positive_words, md.negative_words))) := by
  have hw : words text₁ = words text₂ := by
    unfold words; rw [hl]
  have hp : positive_count text₁ = positive_count text₂ := by
    unfold positive_count; rw [hw]
  have hn : negative_count text₁ = negative_count text₂ := by
    unfold negative_count; rw [hw]
  have ht : total_sentiment_words text₁ = total_sentiment_words text₂ := by
    unfold total_sentiment_words; rw [hp, hn]
  have hs : sentiment_score text₁ = sentiment_score text₂ := by
    unfold sentiment_score; rw [hp, hn, hw]
  have hc : confidence text₁ = confidence text₂ := by
    unfold confidence; rw [ht, hw]
  have hblank : (codes text₁ = [] ∨ pyStrip (codes text₁) = [])
      ↔ (codes text₂ = [] ∨ pyStrip (codes text₂) = []) := by
    rw [blank_iff_all_space, blank_iff_all_space,
      ← forall_isSpace_pyLower_iff, hl, forall_isSpace_pyLower_iff]
  constructor
  · by_cases hb : codes text₁ = [] ∨ pyStrip (codes text₁) = []
    · rw [analyze_blank now₁ text₁ hb, analyze_blank now₂ text₂ (hblank.mp hb)]
      exact ⟨rfl, rfl, rfl, rfl⟩
    · have hb₂ : ¬(codes text₂ = [] ∨ pyStrip (codes text₂) = []) := fun h => hb (hblank.mpr h)
      by_cases h0 : total_sentiment_words text₁ = 0
      · rw [analyze_zero now₁ text₁ hb h0, analyze_zero now₂ text₂ hb₂ (ht ▸ h0)]
        exact ⟨rfl, rfl, rfl, rfl⟩
      · have h₁ : 0 < total_sentiment_words text₁ := Nat.pos_of_ne_zero h0
        have h₂ : 0 < total_sentiment_words text₂ := ht ▸ h₁
        have hm₁ := smer_main now₁ text₁ h₁
        have hm₂ := smer_main now₂ text₂ h₂
        rw [← hs] at hm₂
        have hm : ((analyze now₁ text₁).sentiment, (analyze now₁ text₁).message,
            (analyze now₁ text₁).emoji) = ((analyze now₂ text₂).sentiment,
            (analyze now₂ text₂).message, (analyze now₂ text₂).emoji) := hm₁.trans hm₂.symm
        refine ⟨congrArg Prod.fst hm, ?_, congrArg (fun p => p.2.1) hm,
          congrArg (fun p => p.2.2) hm⟩
        rw [confidence_main now₁ text₁ h₁, confidence_main now₂ text₂ h₂, hc]
  · rintro rfl
    by_cases hb : codes text₁ = [] ∨ pyStrip (codes text₁) = []
    · rw [analyze_blank now₁ text₁ hb, analyze_blank now₂ text₁ hb]
    · by_cases h0 : total_sentiment_words text₁ = 0
      · rw [analyze_zero now₁ text₁ hb h0, analyze_zero now₂ text₁ hb h0]
      · have h₁ : 0 < total_sentiment_words text₁ := Nat.pos_of_ne_zero h0
        rw [metadata_main now₁ text₁ h₁, metadata_main now₂ text₁ h₁]
        rfl

/-- Witness for C9: `"Good"` and `"gOOD"` analysed at different
timestamps agree on sentiment and confidence. -/
theorem C9_deterministic_witness :
    (analyze "2024-01-01T00:00:00" "Good").sentiment
        = (analyze "2025-06-30T12:34:56" "gOOD").sentiment
      ∧ (analyze "2024-01-01T00:00:00" "Good").confidence
        = (analyze "2025-06-30T12:34:56" "gOOD").confidence :=
  ⟨(C9_deterministic "2024-01-01T00:00:00" "2025-06-30T12:34:56" "Good" "gOOD"
      (by decide)).1.1,
   (C9_deterministic "2024-01-01T00:00:00" "2025-06-30T12:34:56" "Good" "gOOD"
      (by decide)).1.2.1⟩

/-- C10: for every input in which at least one token matches the
lexicon, the returned confidence is at least `0.3`; consequently a
returned confidence strictly between `0` and `0.3` is impossible for
any input. -/
theorem C10_confidence_floor (now text : String) :
    (0 < total_sentiment_words text → 3/10 ≤ (analyze now text).confidence)
      ∧ ¬(0 < (analyze now text).confidence ∧ (analyze now text).confidence < 3/10) := by
  by_cases hb : codes text = [] ∨ pyStrip (codes text) = []
  · rw [analyze_blank now text hb]
    exact ⟨fun h => absurd hb (not_blank_of_total_pos text h),
      by norm_num⟩
  · by_cases h0 : total_sentiment_words text = 0
    · rw [analyze_zero now text hb h0]
      exact ⟨fun h => by omega, by norm_num⟩
    · have h : 0 < total_sentiment_words text := Nat.pos_of_ne_zero h0
      rw [confidence_main now text h]
      have hlo := round3_ge _ (confidence_raw_bounds text h).1
      exact ⟨fun _ => hlo, fun ⟨_, hlt⟩ => by linarith⟩

/-- Witness for C10 at input `"good"`. -/
theorem C10_confidence_floor_witness :
    0 < total_sentiment_words "good"
      ∧ 3/10 ≤ (analyze "2024-01-01T00:00:00" "good").confidence :=
  ⟨by decide, (C10_confidence_floor "2024-01-01T00:00:00" "good").1 (by decide)⟩

namespace App

/-- Lexicon `self.positive_words` of the fallback
`SimpleSentimentAnalyzer.__init__` in `src/app.py` (five more words than
the `analyze.py` lexicon). -/
def positive_words : List (List Nat) :=
  List.map codes
    ["good", "great", "excellent", "amazing", "wonderful", "fantastic",
     "awesome", "love", "like", "enjoy", "happy", "pleased", "satisfied",
     "delighted", "perfect", "outstanding", "superb", "brilliant",
     "magnificent", "terrific", "best", "favorite", "recommend",
     "impressed", "beautiful", "nice", "positive", "fresh", "delicious",
     "tasty", "quality", "fast", "helpful", "incredible", "extraordinary",
     "remarkable", "spectacular", "marvelous", "phenomenal", "splendid"]

/-- Lexicon `self.negative_words` of the fallback
`SimpleSentimentAnalyzer.__init__` in `src/app.py` (ten more words than
the `analyze.py` lexicon). -/
def negative_words : List (List Nat) :=
  List.map codes
    ["bad", "terrible", "awful", "horrible", "disgusting", "hate",
     "dislike", "disappointed", "unsatisfied", "unhappy", "angry",
     "frustrated", "annoyed", "worst", "poor", "cheap", "broken",
     "defective", "useless", "waste", "negative", "slow", "expensive",
     "rude", "dirty", "stale", "bland", "bitter", "sour", "wrong",
     "failed", "problem", "issue", "complaint", "disaster", "dreadful",
     "appalling", "atrocious", "deplorable", "detestable", "ghastly",
     "hideous", "loathsome", "miserable", "nasty", "revolting"]

/-- The `scores` sub-dictionary of the `analyze_text` result. -/
structure Scores where
  confidence : ℚ
  confidence_percentage : ℚ
deriving DecidableEq, Repr

/-- The `metadata` sub-dictionary of the `analyze_text` result.  The
`platform` key is absent (`none`) as returned by `analyze_text` and is
set by `do_POST` afterwards. -/
structure Metadata where
  text_length : Nat
  word_count : Nat
  analysis_timestamp : String
  api_version : String
  method : String
  platform : Option String
deriving DecidableEq, Repr

/-- Result dictionary of the fallback `SimpleSentimentAnalyzer.analyze_text`
in `src/app.py`.  The two early-return dicts carry neither `scores` nor
`metadata` keys, modelled by `Option`. -/
structure AnalysisResult where
  sentiment : String
  confidence : ℚ
  message : String
  emoji : String
  scores : Option Scores
  metadata : Option Metadata
deriving DecidableEq, Repr

/-- Model of `words = text.lower().split()` in `analyze_text`. -/
def words (text : String) : List (List Nat) := pySplit (pyLower (codes text))

/-- Model of `positive_count` in `analyze_text`. -/
def positive_count (text : String) : Nat :=
  (words text).countP (fun w => decide (w ∈ positive_words))

/-- Model of `negative_count` in `analyze_text`. -/
def negative_count (text : String) : Nat :=
  (words text).countP (fun w => decide (w ∈ negative_words))

/-- Model of `total_sentiment_words` in `analyze_text`. -/
def total_sentiment_words (text : String) : Nat :=
  positive_count text + negative_count text

/-- Model of `sentiment_score` in `analyze_text`. -/
def sentiment_score (text : String) : ℚ :=
  ((positive_count text : ℚ) - (negative_count text : ℚ)) / ((words text).length : ℚ)

/-- Model of `confidence` in `analyze_text`. -/
def confidence (text : String) : ℚ :=
  min 1 ((total_sentiment_words text : ℚ) / ((max 1 (words text).length : ℕ) : ℚ) + 3/10)

/-- Model of the fallback `SimpleSentimentAnalyzer.analyze_text` from
`src/app.py`. -/
def analyze_text (now : String) (text : String) : AnalysisResult :=
  if codes text = [] ∨ pyStrip (codes text) = [] then
    { sentiment := "neutral", confidence := 0,
      message := "Empty text provided", emoji := "😐",
      scores := none, metadata := none }
  else if total_sentiment_words text = 0 then
    { sentiment := "neutral", confidence := 1/2,
      message := "Neutral sentiment detected", emoji := "😐",
      scores := none, metadata := none }
  else
    let smer : String × String × String :=
      if 1/20 < sentiment_score text then
        ("positive", "Positive sentiment detected!", "😊")
      else if sentiment_score text < -(1/20) then
        ("negative", "Negative sentiment detected!", "😞")
      else
        ("neutral", "Neutral sentiment detected", "😐")
    { sentiment := smer.1, confidence := round3 (confidence text),
      message := smer.2.1, emoji := smer.2.2,
      scores := some { confidence := round3 (confidence text),
                       confidence_percentage := round1 (confidence text * 100) },
      metadata := some
        { text_length := (codes text).length, word_count := (words text).length,
          analysis_timestamp := now, api_version := "1.0",
          method := "SimpleFallback", platform := none } }

/-- JSON values, as produced by `json.loads` on a request body. -/
inductive Json where
  | null : Json
  | bool (b : Bool) : Json
  | num (q : ℚ) : Json
  | str (s : String) : Json
  | arr (elems : List Json) : Json
  | obj (fields : List (String × Json)) : Json

/-- Model of an incoming HTTP request for the `handler` class of
`src/app.py`.  `contentLength` is the value of the `Content-Length`
header (0 when absent); `body` is the outcome of `json.loads` on the
request body, `none` modelling a `json.JSONDecodeError`. -/
structure Request where
  method : String
  path : String
  contentLength : Nat
  body : Option Json

/-- Responses the handler can emit.  `errorEnvelope` models
`_send_error_response` (the given status with `{error: message,
timestamp, status_code}`); `analysisOk` a 200 with the analysis
payload; `healthOk` the 200 health payload; `optionsOk` the bare 200 of
the CORS preflight; `internalError` the 500 `Internal server error`
envelope built in the `except` clause (its exception text is not
modelled); `unsupportedMethod` the 501 `Unsupported method` answer that
`http.server.BaseHTTPRequestHandler` sends for any HTTP method without
a `do_*` member on the handler class. -/
inductive Response where
  | errorEnvelope (status : Nat) (message : String) : Response
  | analysisOk (result : AnalysisResult) : Response
  | healthOk : Response
  | optionsOk : Response
  | internalError : Response
  | unsupportedMethod (method : String) : Response
deriving DecidableEq, Repr

/-- Model of `self.path.split("?")[0]`. -/
def stripQuery (p : String) : String :=
  String.mk (p.data.takeWhile (fun c => c ≠ '?'))

/-- Model of the Python membership test `"text" in data` on a parsed
dict: key membership. -/
def dictHasText (fields : List (String × Json)) : Bool :=
  fields.any (fun kv => kv.1 == "text")

/-- Model of the dict lookup `data["text"]` (keys of a dict produced by
`json.loads` are unique). -/
def dictGetText (fields : List (String × Json)) : Option Json :=
  (fields.find? (fun kv => kv.1 == "text")).map (fun kv => kv.2)

/-- Substring test on codepoint lists, modelling Python's `in` on two
strings. -/
def listInfix (needle hay : List Nat) : Bool :=
  hay.tails.any (fun t => needle.isPrefixOf t)

/-- Model of the Python expression `"text" in data` for each possible
type of the parsed JSON value `data`: key membership on a dict,
substring test on a string, element equality on a list, and a
`TypeError` (`none`) on a number, boolean or `None`. -/
def containsText : Json → Option Bool
  | .obj fields => some (dictHasText fields)
  | .str s => some (listInfix (codes "text") (codes s))
  | .arr elems => some (elems.any (fun e => match e with | .str s => s == "text" | _ => false))
  | _ => none

/-- Model of the Python subscript `data["text"]`: dict lookup on a dict,
a `TypeError` (`none`) when `data` is a string or a list (string/list
indices must be integers). -/
def indexText : Json → Option Json
  | .obj fields => dictGetText fields
  | _ => none

/-- Model of `handler.do_GET` from `src/app.py`. -/
def do_GET (req : Request) : Response :=
  if stripQuery req.path = "/api/health" ∨ stripQuery req.path = "/health" then
    Response.healthOk
  else
    Response.errorEnvelope 404 "Endpoint not found"

/-- Model of `handler.do_POST` from `src/app.py`.  The deployed module
imports `EmotionEvaluator` from `sentiment_engine`, which is not among
the source files; the model takes the fallback branch (`evaluator`
unavailable), which is the one implemented here.  The mutation
`formatted_result["metadata"]["platform"] = "Vercel Serverless"` raises
a `KeyError` (answered 500) when `analyze_text` returned a dict with no
`metadata` key. -/
def do_POST (now : String) (req : Request) : Response :=
  if ¬(stripQuery req.path = "/api/analyze" ∨ stripQuery req.path = "/analyze") then
    Response.errorEnvelope 404 "Endpoint not found"
  else if req.contentLength = 0 then
    Response.errorEnvelope 400 "No data provided"
  else
    match req.body with
    | none => Response.errorEnvelope 400 "Invalid JSON format"
    | some data =>
      match containsText data with
      | none => Response.internalError
      | some false => Response.errorEnvelope 400 "Missing 'text' field"
      | some true =>
        match indexText data with
        | none => Response.internalError
        | some (Json.str s) =>
          if pyStrip (codes s) = [] then
            Response.errorEnvelope 400 "Text must be a non-empty string"
          else
            let r := analyze_text now s
            match r.metadata with
            | some md =>
              Response.analysisOk
                { r with metadata := some { md with platform := some "Vercel Serverless" } }
            | none => Response.internalError
        | some _ => Response.errorEnvelope 400 "Text must be a non-empty string"

/-- Method dispatch of one request.  Requests with methods `GET`,
`POST` and `OPTIONS` reach the corresponding `do_*` member of the
handler class; for every other method
`http.server.BaseHTTPRequestHandler.handle_one_request` finds no
`do_*` member and answers 501 `Unsupported method` itself. -/
def dispatch (now : String) (req : Request) : Response :=
  if req.method = "GET" then do_GET req
  else if req.method = "POST" then do_POST now req
  else if req.method = "OPTIONS" then Response.optionsOk
  else Response.unsupportedMethod req.method

theorem dictGetText_some_hasText (fields : List (String × Json)) (v : Json)
    (h : dictGetText fields = some v) : dictHasText fields = true := by
  unfold dictGetText at h
  unfold dictHasText
  obtain ⟨kv, hkv, -⟩ := Option.map_eq_some'.mp h
  have hmem : kv ∈ fields := List.mem_of_find?_eq_some hkv
  have hp := List.find?_some hkv
  exact List.any_eq_true.mpr ⟨kv, hmem, hp⟩

end App

/-- C5 counterexample: the claim says a POST body that does not parse
as a JSON object is answered 400 "Invalid JSON" / "Invalid JSON
format".  The concrete body `5` (`Content-Length` 1) parses as the JSON
number 5 — not an object — yet `json.loads` succeeds, so the handler
reaches `"text" not in data`, which raises `TypeError` on an `int` and
is answered 500 `Internal server error`, not 400. -/
theorem C5_counterexample :
    App.dispatch "2024-01-01T00:00:00"
        { method := "POST", path := "/analyze", contentLength := 1,
          body := some (App.Json.num 5) }
      = App.Response.internalError
    ∧ App.dispatch "2024-01-01T00:00:00"
        { method := "POST", path := "/analyze", contentLength := 1,
          body := some (App.Json.num 5) }
      ≠ App.Response.errorEnvelope 400 "Invalid JSON format"
    ∧ App.dispatch "2024-01-01T00:00:00"
        { method := "POST", path := "/analyze", contentLength := 1,
          body := some (App.Json.num 5) }
      ≠ App.Response.errorEnvelope 400 "Invalid JSON" := by
  refine ⟨rfl, ?_, ?_⟩ <;> intro h <;> cases h

/-- C5 as amended: for every POST to an analysis path the validation
steps run in the claimed fixed order, each failure producing its 400
error and stopping all later steps (the scorer is never invoked after a
rejection): (a) empty body → "No data provided"; (b) body that fails to
parse as JSON → "Invalid JSON format"; (c) parsed JSON object lacking
key 'text' → "Missing 'text' field"; (d) a 'text' value that is not a
string, or empty after trimming → "Text must be a non-empty string".
Amendment to (b): a body that parses to a non-object JSON value is not
rejected as invalid JSON — a number, boolean or null makes the `"text"
not in data` membership test raise a TypeError, answered 500 "Internal
server error" (strings and arrays fall through to the 'text' checks
instead). -/
theorem C5_validation_order (now : String) (req : App.Request)
    (hm : req.method = "POST")
    (hp : App.stripQuery req.path = "/api/analyze" ∨ App.stripQuery req.path = "/analyze") :
    (req.contentLength = 0 →
        App.dispatch now req = App.Response.errorEnvelope 400 "No data provided")
    ∧ (0 < req.contentLength → req.body = none →
        App.dispatch now req = App.Response.errorEnvelope 400 "Invalid JSON format")
    ∧ (∀ fields, 0 < req.contentLength → req.body = some (App.Json.obj fields) →
        App.dictHasText fields = false →
        App.dispatch now req = App.Response.errorEnvelope 400 "Missing 'text' field")
    ∧ (∀ j, 0 < req.contentLength → req.body = some j → App.containsText j = none →
        App.dispatch now req = App.Response.internalError)
    ∧ (∀ fields s, 0 < req.contentLength → req.body = some (App.Json.obj fields) →
        App.dictGetText fields = some (App.Json.str s) → pyStrip (codes s) = [] →
        App.dispatch now req = App.Response.errorEnvelope 400 "Text must be a non-empty string")
    ∧ (∀ fields v, 0 < req.contentLength → req.body = some (App.Json.obj fields) →
        App.dictGetText fields = some v → (∀ s, v ≠ App.Json.str s) →
        App.dispatch now req = App.Response.errorEnvelope 400 "Text must be a non-empty string") := by
  have hd : App.dispatch now req = App.do_POST now req := by
    unfold App.dispatch
    rw [hm]
    rfl
  have hnp : ¬¬(App.stripQuery req.path = "/api/analyze" ∨ App.stripQuery req.path = "/analyze") :=
    not_not_intro hp
  refine ⟨?_, ?_, ?_, ?_, ?_, ?_⟩
  · intro h0
    rw [hd]
    unfold App.do_POST
    rw [if_neg hnp, if_pos h0]
  · intro hcl hb
    rw [hd]
    unfold App.do_POST
    rw [if_neg hnp, if_neg (by omega), hb]
  · intro fields hcl hb hft
    rw [hd]
    unfold App.do_POST
    rw [if_neg hnp, if_neg (by omega), hb]
    show (match App.containsText (App.Json.obj fields) with
      | none => App.Response.internalError
      | some false => App.Response.errorEnvelope 400 "Missing 'text' field"
      | some true => _) = _
    rw [show App.containsText (App.Json.obj fields) = some (App.dictHasText fields) from rfl, hft]
  · intro j hcl hb hct
    rw [hd]
    unfold App.do_POST
    rw [if_neg hnp, if_neg (by omega), hb]
    show (match App.containsText j with
      | none => App.Response.internalError
      | some false => App.Response.errorEnvelope 400 "Missing 'text' field"
      | some true => _) = _
    rw [hct]
  · intro fields s hcl hb hget hstrip
    rw [hd]
    unfold App.do_POST
    rw [if_neg hnp, if_neg (by omega), hb]
    have hht : App.dictHasText fields = true := App.dictGetText_some_hasText fields _ hget
    show (match App.containsText (App.Json.obj fields) with
      | none => App.Response.internalError
      | some false => App.Response.errorEnvelope 400 "Missing 'text' field"
      | some true => _) = _
    rw [show App.containsText (App.Json.obj fields) = some (App.dictHasText fields) from rfl, hht]
    show (match App.indexText (App.Json.obj fields) with
      | none => App.Response.internalError
      | some (App.Json.str s) => _
      | some _ => App.Response.errorEnvelope 400 "Text must be a non-empty string") = _
    rw [show App.indexText (App.Json.obj fields) = App.dictGetText fields from rfl, hget]
    show (if pyStrip (codes s) = [] then
        App.Response.errorEnvelope 400 "Text must be a non-empty string"
      else _) = _
    rw [if_pos hstrip]
  · intro fields v hcl hb hget hv
    rw [hd]
    unfold App.do_POST
    rw [if_neg hnp, if_neg (by omega), hb]
    have hht : App.dictHasText fields = true := App.dictGetText_some_hasText fields _ hget
    show (match App.containsText (App.Json.obj fields) with
      | none => App.Response.internalError
      | some false => App.Response.errorEnvelope 400 "Missing 'text' field"
      | some true => _) = _
    rw [show App.containsText (App.Json.obj fields) = some (App.dictHasText fields) from rfl, hht]
    show (match App.indexText (App.Json.obj fields) with
      | none => App.Response.internalError
      | some (App.Json.str s) => _
      | some _ => App.Response.errorEnvelope 400 "Text must be a non-empty string") = _
    rw [show App.indexText (App.Json.obj fields) = App.dictGetText fields from rfl, hget]
    cases v with
    | null => rfl
    | bool b => rfl
    | num q => rfl
    | str s => exact absurd rfl (hv s)
    | arr elems => rfl
    | obj fs => rfl

/-- Witness for the amended C5: `POST /analyze` with an empty body is
rejected 400 "No data provided". -/
theorem C5_validation_order_witness :
    App.dispatch "2024-01-01T00:00:00"
        { method := "POST", path := "/analyze", contentLength := 0, body := none }
      = App.Response.errorEnvelope 400 "No data provided" :=
  (C5_validation_order "2024-01-01T00:00:00"
    { method := "POST", path := "/analyze", contentLength := 0, body := none }
    rfl (Or.inr rfl)).1 rfl

/-- C6 counterexample: the claim says every request whose method/path
is not POST-to-analysis, GET-to-health or OPTIONS is answered 404
"Endpoint not found".  A `PUT /analyze` request is such a request, but
the handler class defines no `do_PUT`, so
`BaseHTTPRequestHandler.handle_one_request` answers 501 "Unsupported
method", not 404. -/
theorem C6_counterexample :
    App.dispatch "2024-01-01T00:00:00"
        { method := "PUT", path := "/analyze", contentLength := 0, body := none }
      = App.Response.unsupportedMethod "PUT"
    ∧ App.dispatch "2024-01-01T00:00:00"
        { method := "PUT", path := "/analyze", contentLength := 0, body := none }
      ≠ App.Response.errorEnvelope 404 "Endpoint not found" := by
  refine ⟨rfl, ?_⟩
  intro h
  cases h

/-- C6 as amended: a GET to any non-health path and a POST to any
non-analysis path are answered 404 "Endpoint not found" (in particular
a POST to a non-analysis path is rejected before any scoring or body
validation), and OPTIONS is answered 200; but a request with any other
method is answered 501 "Unsupported method" by the HTTP framework's
default dispatch, not 404. -/
theorem C6_unknown_endpoint (now : String) (req : App.Request) :
    (req.method = "GET" → App.stripQuery req.path ≠ "/api/health" →
        App.stripQuery req.path ≠ "/health" →
        App.dispatch now req = App.Response.errorEnvelope 404 "Endpoint not found")
    ∧ (req.method = "POST" → App.stripQuery req.path ≠ "/api/analyze" →
        App.stripQuery req.path ≠ "/analyze" →
        App.dispatch now req = App.Response.errorEnvelope 404 "Endpoint not found")
    ∧ (req.method = "OPTIONS" → App.dispatch now req = App.Response.optionsOk)
    ∧ (req.method ≠ "GET" → req.method ≠ "POST" → req.method ≠ "OPTIONS" →
        App.dispatch now req = App.Response.unsupportedMethod req.method) := by
  refine ⟨?_, ?_, ?_, ?_⟩
  · intro hm h1 h2
    unfold App.dispatch
    rw [hm, if_pos rfl]
    unfold App.do_GET
    rw [if_neg (by rintro (h | h) <;> contradiction)]
  · intro hm h1 h2
    unfold App.dispatch
    rw [hm, if_neg (by decide), if_pos rfl]
    unfold App.do_POST
    rw [if_pos (by rintro (h | h) <;> contradiction)]
  · intro hm
    unfold App.dispatch
    rw [hm, if_neg (by decide), if_neg (by decide), if_pos rfl]
  · intro h1 h2 h3
    unfold App.dispatch
    rw [if_neg h1, if_neg h2, if_neg h3]

/-- Witness for the amended C6: `GET /foo` is answered 404 "Endpoint
not found". -/
theorem C6_unknown_endpoint_witness :
    App.dispatch "2024-01-01T00:00:00"
        { method := "GET", path := "/foo", contentLength := 0, body := none }
      = App.Response.errorEnvelope 404 "Endpoint not found" :=
  (C6_unknown_endpoint "2024-01-01T00:00:00"
    { method := "GET", path := "/foo", contentLength := 0, body := none }).1
    rfl (by decide) (by decide)

end EmotionEval
